import Mathlib

/-!
Verification of `srwpy/uti_plot.py` (SRW plotting façade).

The module is a thin façade over a pluggable plotting backend: a process-wide
handle `_backend` starts as a lazy-initializing proxy (`_BackendMissing`), and
`uti_plot_init` replaces it either with a constructed matplotlib backend or
with the silent no-op backend (`_BackendNone`).  The façade functions
normalize ranges and labels and delegate one call to the handle.

Modelling conventions, used throughout:
* Python numbers are rationals (`ℚ`); Python container values are the
  inductive `PyVal`; raised exceptions are `Except PyErr`.
* The external collaborators are parameters: `constructs` decides whether
  `uti_plot_matplotlib.Backend(b, f)` constructs without raising, and a
  constructed backend is identified by its constructor arguments;
  `rescale_dim` is `uti_plot_com.rescale_dim`; `pyStr` is Python's `str` on
  numbers.
* A façade function is embedded as a pure function from its arguments to the
  argument tuple it delegates to the backend (plus the raised error, if any).
-/

/-- Python values handled by the façade: `None`, numbers, strings, booleans,
and the three sequence containers distinguished by `uti_plot1d_ir`
(`list`, `tuple`, `array.array`). -/
inductive PyVal where
  | pyNone : PyVal
  | num : ℚ → PyVal
  | str : String → PyVal
  | bool : Bool → PyVal
  | list : List PyVal → PyVal
  | tuple : List PyVal → PyVal
  | arr : List PyVal → PyVal

/-- Python exceptions raised by the code under verification. -/
inductive PyErr where
  | nameError : String → PyErr
  | typeError : String → PyErr
  | indexError : String → PyErr
  | valueError : String → PyErr
  | exception : String → PyErr
deriving DecidableEq

/-- The process-wide backend handle `_backend`: the lazy proxy
`_BackendMissing` (its initial value, line 302), the no-op `_BackendNone`,
or a matplotlib backend identified by its constructor arguments
(`uti_plot_matplotlib.Backend(backend, fname_format)`, line 61). -/
inductive Backend where
  | missing : Backend
  | installedNone : Backend
  | matplotlib : String → Option String → Backend
deriving DecidableEq

/-- Line 42: `DEFAULT_BACKEND = '<default>'`. -/
def DEFAULT_BACKEND : String := "<default>"

/-- Embeds `uti_plot_init` (lines 44-69).  `constructs b f` is the oracle for
whether importing `uti_plot_matplotlib` and evaluating `Backend(b, f)`
succeeds (lines 60-61); on failure the except-branch prints and falls through
to `_backend = _BackendNone()` (line 69).  With `backend` equal to `None` and
a non-null `fname_format`, line 68 raises `ValueError`.  The result is the
value assigned to the global `_backend`, or the raised error. -/
def uti_plot_init (constructs : String → Option String → Bool)
    (backend : Option String) (fname_format : Option String) :
    Except PyErr Backend :=
  match backend with
  | some b =>
    if constructs b fname_format then
      Except.ok (Backend.matplotlib b fname_format)
    else
      Except.ok Backend.installedNone
  | none =>
    match fname_format with
    | some f =>
      Except.error
        (PyErr.valueError (f ++ ": fname_format must be null if backend is None"))
    | none => Except.ok Backend.installedNone

/-- One transition of the global `_backend` under a call to `uti_plot_init`
from state `st`: when line 68 raises, the assignment at line 69 is never
reached, so the global keeps its previous value.  Returns the new global
together with the error surfaced to the caller, if any. -/
def initStep (constructs : String → Option String → Bool)
    (backend fname_format : Option String) (st : Backend) :
    Backend × Option PyErr :=
  match uti_plot_init constructs backend fname_format with
  | Except.ok b => (b, Option.none)
  | Except.error e => (st, some e)

/-- C1: `uti_plot_init(None, fname_format)` with a non-null `fname_format`
raises a `ValueError` naming `fname_format` and leaves the global backend
handle unchanged; `uti_plot_init(None, None)` installs the none-backend
without raising; and for every backend identifier whose construction fails,
the none-backend is installed and nothing is raised to the caller. -/
theorem uti_plot_init_spec (constructs : String → Option String → Bool)
    (f b : String) (ff : Option String) (st : Backend)
    (hfail : constructs b ff = false) :
    initStep constructs Option.none (some f) st
      = (st, some (PyErr.valueError
          (f ++ ": fname_format must be null if backend is None")))
    ∧ initStep constructs Option.none Option.none st
      = (Backend.installedNone, Option.none)
    ∧ initStep constructs (some b) ff st
      = (Backend.installedNone, Option.none) := by
  refine ⟨rfl, rfl, ?_⟩
  simp [initStep, uti_plot_init, hfail]

/-- C1 witness: a concrete run of the three branches, with an oracle under
which construction of the backend `TkAgg` fails. -/
theorem uti_plot_init_spec_witness :
    (fun (_ : String) (_ : Option String) => false) "TkAgg" Option.none = false
    ∧ (initStep (fun _ _ => false) Option.none (some "plot-%d.png")
          Backend.missing
        = (Backend.missing, some (PyErr.valueError
            ("plot-%d.png" ++ ": fname_format must be null if backend is None")))
      ∧ initStep (fun _ _ => false) Option.none Option.none Backend.missing
        = (Backend.installedNone, Option.none)
      ∧ initStep (fun _ _ => false) (some "TkAgg") Option.none Backend.missing
        = (Backend.installedNone, Option.none)) :=
  ⟨rfl, uti_plot_init_spec (fun _ _ => false) "plot-%d.png" "TkAgg"
    Option.none Backend.missing rfl⟩

/-- Observable events of one façade call: a call to `uti_plot_init` with the
given arguments, or the invocation of the method named `method` on `target`
with the given positional arguments. -/
inductive Event where
  | initCall : Option String → Option String → Event
  | dispatch : Backend → String → List PyVal → Event

/-- Whether an event is an initialization. -/
def Event.isInit : Event → Bool
  | Event.initCall _ _ => true
  | Event.dispatch _ _ _ => false

/-- Embeds a façade method call hitting the handle `_backend` in state `st`.
On `_BackendMissing`, `__getattr__` (line 288) yields `_backend_call`
(lines 292-296), which runs `uti_plot_init()` with its default arguments,
recovers the calling method's name, and invokes that method on the new
global `_backend` with `*args` only — `**kwargs` are discarded.  On any other
backend the named method is invoked directly.  Returns the final global
state and the event trace. -/
def backendDispatch (constructs : String → Option String → Bool) (st : Backend)
    (method : String) (args : List PyVal) (kwargs : List (String × PyVal)) :
    Backend × List Event :=
  match st with
  | Backend.missing =>
    let st1 := (initStep constructs (some DEFAULT_BACKEND) Option.none
      Backend.missing).fst
    (st1, [Event.initCall (some DEFAULT_BACKEND) Option.none,
           Event.dispatch st1 method args])
  | st => (st, [Event.dispatch st method args])

/-- C2: a method call on the uninitialized proxy performs exactly one
default initialization, then invokes the same-named method of the newly
installed backend (which is no longer the proxy) with the original
positional arguments, dropping every keyword argument: the trace is
independent of `kwargs`. -/
theorem backendDispatch_missing_spec (constructs : String → Option String → Bool)
    (method : String) (args : List PyVal) (kwargs : List (String × PyVal)) :
    backendDispatch constructs Backend.missing method args kwargs
      = ((initStep constructs (some DEFAULT_BACKEND) Option.none
            Backend.missing).fst,
         [Event.initCall (some DEFAULT_BACKEND) Option.none,
          Event.dispatch
            ((initStep constructs (some DEFAULT_BACKEND) Option.none
              Backend.missing).fst) method args])
    ∧ ((backendDispatch constructs Backend.missing method args kwargs).snd.filter
        Event.isInit).length = 1
    ∧ (initStep constructs (some DEFAULT_BACKEND) Option.none
        Backend.missing).fst ≠ Backend.missing := by
  refine ⟨rfl, rfl, ?_⟩
  by_cases h : constructs DEFAULT_BACKEND Option.none
  · simp [initStep, uti_plot_init, h]
  · simp [initStep, uti_plot_init, h]

/-- Embeds `_BackendNone._backend_call` (lines 298-300): the body is `pass`,
so every method call, whatever its positional and keyword arguments, returns
Python `None`, raises nothing, and leaves the global backend state `st`
untouched. -/
def backendNoneCall (st : Backend) (method : String) (args : List PyVal)
    (kwargs : List (String × PyVal)) : Except PyErr PyVal × Backend :=
  (Except.ok PyVal.pyNone, st)

/-- C9: every method on the none-backend, with arbitrary positional and
keyword arguments and in any global state, returns `None` without raising
and leaves the state exactly as it was. -/
theorem backendNoneCall_spec (st : Backend) (method : String)
    (args : List PyVal) (kwargs : List (String × PyVal)) :
    backendNoneCall st method args kwargs = (Except.ok PyVal.pyNone, st) :=
  rfl

/-- Embeds `uti_plot_data_file` (lines 236-256): it delegates its eleven
parameters, in order and unchanged, to the backend method
`uti_plot_data_file`.  The result records the delegated method name and
argument list. -/
def uti_plot_data_file (fname read_labels e x y graphs_joined
    multicolumn_data column_x column_y scale width_pixels : PyVal) :
    String × List PyVal :=
  ("uti_plot_data_file",
   [fname, read_labels, e, x, y, graphs_joined,
    multicolumn_data, column_x, column_y, scale, width_pixels])

/-- Embeds `uti_data_file_plot` (lines 261-285): its body (line 285) forwards
its eleven parameters unchanged to `uti_plot_data_file`. -/
def uti_data_file_plot (fname read_labels e x y graphs_joined
    multicolumn_data column_x column_y scale width_pixels : PyVal) :
    String × List PyVal :=
  uti_plot_data_file fname read_labels e x y graphs_joined
    multicolumn_data column_x column_y scale width_pixels

/-- C10: `uti_data_file_plot` and `uti_plot_data_file` are extensionally
equal: on every argument tuple both delegate the identical argument list to
the backend and return the same result. -/
theorem uti_data_file_plot_eq_uti_plot_data_file (fname read_labels e x y
    graphs_joined multicolumn_data column_x column_y scale width_pixels : PyVal) :
    uti_data_file_plot fname read_labels e x y graphs_joined
      multicolumn_data column_x column_y scale width_pixels
    = uti_plot_data_file fname read_labels e x y graphs_joined
      multicolumn_data column_x column_y scale width_pixels :=
  rfl

/-- Python subscription `v[i]` on the container values; anything else is not
subscriptable. -/
def pyIndex : PyVal → Nat → Except PyErr PyVal
  | PyVal.list xs, i =>
    if h : i < xs.length then Except.ok (xs.get ⟨i, h⟩)
    else Except.error (PyErr.indexError "list index out of range")
  | PyVal.tuple xs, i =>
    if h : i < xs.length then Except.ok (xs.get ⟨i, h⟩)
    else Except.error (PyErr.indexError "tuple index out of range")
  | PyVal.arr xs, i =>
    if h : i < xs.length then Except.ok (xs.get ⟨i, h⟩)
    else Except.error (PyErr.indexError "array index out of range")
  | _, _ => Except.error (PyErr.typeError "object is not subscriptable")

/-- The elements of a container value. -/
def pyElems : PyVal → List PyVal
  | PyVal.list xs => xs
  | PyVal.tuple xs => xs
  | PyVal.arr xs => xs
  | _ => []

/-- Embeds the guard of line 114,
`isinstance(ary0, list) or isinstance(ary0, array) or isinstance(ary0, tuple)`.
The module's imports are only `uti_plot_com`, `sys` and `traceback`
(lines 32-38), so the name `array` is unbound in the module's namespace.
Python evaluates `or` left to right with short-circuiting: a `list` value
satisfies the first disjunct and passes, while for every other value the
second disjunct evaluates the unbound name `array` and raises
`NameError: name 'array' is not defined` — the guard can never return
`False`, so the `raise Exception` at line 115 is unreachable. -/
def plottableCheck : PyVal → Except PyErr Bool
  | PyVal.list _ => Except.ok true
  | _ => Except.error (PyErr.nameError "name 'array' is not defined")

/-- The loop of lines 117-126: for each `i`, `arx[i] = ary[i][0]` and
`aryNew[i] = ary[i][1]`; returns `(arx, aryNew)`. -/
def splitPairs : List PyVal → Except PyErr (List PyVal × List PyVal)
  | [] => Except.ok ([], [])
  | p :: ps => do
    let a ← pyIndex p 0
    let b ← pyIndex p 1
    let rest ← splitPairs ps
    Except.ok (a :: rest.fst, b :: rest.snd)

/-- Embeds `uti_plot1d_ir` (lines 94-128).  With `units` present the labels
are decorated (lines 104-109; no range rescaling happens here).  With `arx`
absent, `ary` must pass the guard of line 114, else the generic exception of
line 115 is raised; it is then destructured into parallel abscissa/ordinate
lists (lines 117-126).  The result is the call delegated to the backend at
line 128: `(ary, arx, labels)`. -/
def uti_plot1d_ir (ary : PyVal) (arx : Option PyVal) (labels : List String)
    (units : Option (String × String)) :
    Except PyErr (PyVal × PyVal × List String) :=
  let labels1 :=
    match units with
    | some (u0, u1) =>
      [labels.getD 0 "" ++ " [" ++ u0 ++ "]",
       labels.getD 1 "" ++ " [" ++ u1 ++ "]",
       if labels.length < 3 then "" else labels.getD 2 ""]
    | none => labels
  match arx with
  | some ax => Except.ok (ary, ax, labels1)
  | none => do
    let ok ← plottableCheck ary
    if ok then do
      let xs ← splitPairs (pyElems ary)
      Except.ok (PyVal.list xs.snd, PyVal.list xs.fst, labels1)
    else
      Except.error (PyErr.exception
        "Incorrect definition of data arrays / lists to be plotted")

/-- C3: `uti_plot1d_ir` with `arx` omitted accepts a `list` ordinate, but —
contrary to the claim — a `tuple` or `array.array` ordinate raises
`NameError` (the name `array` is unbound in the module), and a
non-container ordinate also raises that `NameError` instead of the generic
`Exception` of line 115. -/
theorem uti_plot1d_ir_container_guard (xs : List PyVal) (q : ℚ) :
    plottableCheck (PyVal.list xs) = Except.ok true
    ∧ plottableCheck (PyVal.tuple xs)
      = Except.error (PyErr.nameError "name 'array' is not defined")
    ∧ plottableCheck (PyVal.arr xs)
      = Except.error (PyErr.nameError "name 'array' is not defined")
    ∧ uti_plot1d_ir
        (PyVal.tuple [PyVal.tuple [PyVal.num 1, PyVal.num 1],
                      PyVal.tuple [PyVal.num 2, PyVal.num 4],
                      PyVal.tuple [PyVal.num 3, PyVal.num 9]])
        Option.none ["Longitudinal Position [m]", "Horizontal Position [m]"]
        Option.none
      = Except.error (PyErr.nameError "name 'array' is not defined")
    ∧ uti_plot1d_ir (PyVal.num q) Option.none
        ["Longitudinal Position [m]", "Horizontal Position [m]"] Option.none
      = Except.error (PyErr.nameError "name 'array' is not defined") :=
  ⟨rfl, rfl, rfl, rfl, rfl⟩

/-- `splitPairs` on a list of explicit two-element pairs separates first and
second components. -/
theorem splitPairs_pairs (ps : List (PyVal × PyVal)) :
    splitPairs (ps.map fun p => PyVal.list [p.fst, p.snd])
      = Except.ok (ps.map Prod.fst, ps.map Prod.snd) := by
  induction ps with
  | nil => rfl
  | cons p ps ih =>
    simp only [List.map_cons, splitPairs, pyIndex, ih]
    rfl

/-- C4: a `list` of (x, y) pairs with `arx` omitted is destructured before
delegation into the list of first components (abscissa) and the list of
second components (ordinate), both of the input's length — in particular
`[[1,1],[2,4],[3,9]]` yields abscissa `[1,2,3]` and ordinate `[1,4,9]` —
but the same pairs in a `tuple` container raise `NameError` instead of being
destructured, because the name `array` in the guard of line 114 is unbound. -/
theorem uti_plot1d_ir_destructure (ps : List (PyVal × PyVal))
    (labels : List String) :
    uti_plot1d_ir (PyVal.list (ps.map fun p => PyVal.list [p.fst, p.snd]))
        Option.none labels Option.none
      = Except.ok (PyVal.list (ps.map Prod.snd),
                   PyVal.list (ps.map Prod.fst), labels)
    ∧ (ps.map Prod.fst).length = ps.length
    ∧ (ps.map Prod.snd).length = ps.length
    ∧ uti_plot1d_ir
        (PyVal.list [PyVal.list [PyVal.num 1, PyVal.num 1],
                     PyVal.list [PyVal.num 2, PyVal.num 4],
                     PyVal.list [PyVal.num 3, PyVal.num 9]])
        Option.none ["Longitudinal Position [m]", "Horizontal Position [m]"]
        Option.none
      = Except.ok
          (PyVal.list [PyVal.num 1, PyVal.num 4, PyVal.num 9],
           PyVal.list [PyVal.num 1, PyVal.num 2, PyVal.num 3],
           ["Longitudinal Position [m]", "Horizontal Position [m]"])
    ∧ uti_plot1d_ir
        (PyVal.tuple [PyVal.list [PyVal.num 1, PyVal.num 1],
                      PyVal.list [PyVal.num 2, PyVal.num 4],
                      PyVal.list [PyVal.num 3, PyVal.num 9]])
        Option.none ["Longitudinal Position [m]", "Horizontal Position [m]"]
        Option.none
      = Except.error (PyErr.nameError "name 'array' is not defined") := by
  refine ⟨?_, List.length_map _ _, List.length_map _ _, rfl, rfl⟩
  simp only [uti_plot1d_ir, plottableCheck, pyElems, splitPairs_pairs ps]
  rfl

/-- A `(start, stop, num)` axis range triple, as handed to a
`numpy.linspace`-style consumer; indices 0 and 1 are the endpoints. -/
structure RangeT where
  start : ℚ
  stop : ℚ
  num : ℚ
deriving DecidableEq

/-- The identity rescale collaborator: returns the range and the unit
unchanged. -/
def idRescale : RangeT → String → RangeT × String :=
  fun r u => (r, u)

/-- Embeds `uti_plot1d` (lines 76-92).  `rescale_dim` is the external
collaborator `uti_plot_com.rescale_dim`.  With `units` present, the abscissa
range is rescaled with the x-unit (line 86), and the labels are rebuilt as a
3-tuple with bracketed units, the title defaulting to the empty string when
fewer than three labels were given (lines 87-89).  The result is the call
delegated at line 92: `(ar1d, x_range, labels)`. -/
def uti_plot1d (rescale_dim : RangeT → String → RangeT × String)
    (ar1d : PyVal) (x_range : RangeT) (labels : List String)
    (units : Option (String × String)) : PyVal × RangeT × List String :=
  match units with
  | none => (ar1d, x_range, labels)
  | some (u0, u1) =>
    let rx := rescale_dim x_range u0
    let strTitle := if labels.length < 3 then "" else labels.getD 2 ""
    (ar1d, rx.fst,
     [labels.getD 0 "" ++ " [" ++ rx.snd ++ "]",
      labels.getD 1 "" ++ " [" ++ u1 ++ "]",
      strTitle])

/-- C5: with `units` supplied, `uti_plot1d` rescales the abscissa range
through the rescale collaborator with the x-unit and delegates the labels
`(labels[0] ++ " [" ++ rescaled-x-unit ++ "]",
labels[1] ++ " [" ++ units[1] ++ "]", t)`, where `t` is `labels[2]` when
three labels were given and `""` otherwise; with the identity collaborator,
`uti_plot1d(data, (0,10,5), (E,I), units=(eV,ph))` delegates labels
`(E [eV], I [ph], "")`. -/
theorem uti_plot1d_units_spec (rescale_dim : RangeT → String → RangeT × String)
    (ar1d : PyVal) (x_range : RangeT) (l0 l1 l2 u0 u1 : String) :
    uti_plot1d rescale_dim ar1d x_range [l0, l1] (some (u0, u1))
      = (ar1d, (rescale_dim x_range u0).fst,
         [l0 ++ " [" ++ (rescale_dim x_range u0).snd ++ "]",
          l1 ++ " [" ++ u1 ++ "]", ""])
    ∧ uti_plot1d rescale_dim ar1d x_range [l0, l1, l2] (some (u0, u1))
      = (ar1d, (rescale_dim x_range u0).fst,
         [l0 ++ " [" ++ (rescale_dim x_range u0).snd ++ "]",
          l1 ++ " [" ++ u1 ++ "]", l2])
    ∧ uti_plot1d idRescale ar1d ⟨0, 10, 5⟩ ["E", "I"] (some ("eV", "ph"))
      = (ar1d, ⟨0, 10, 5⟩, ["E [eV]", "I [ph]", ""]) :=
  ⟨rfl, rfl, rfl⟩

/-- Embeds `uti_plot2d` (lines 147-169).  The guard at line 161 requires
`units`, `x_range` and `y_range` all present for rescaling and label
decoration; otherwise the ranges and labels are delegated untouched
(line 169). -/
def uti_plot2d (rescale_dim : RangeT → String → RangeT × String)
    (ar2d : PyVal) (x_range y_range : Option RangeT) (labels : List String)
    (units : Option (String × String × String)) :
    PyVal × Option RangeT × Option RangeT × List String :=
  match units, x_range, y_range with
  | some (u0, u1, _u2), some xr, some yr =>
    let rx := rescale_dim xr u0
    let ry := rescale_dim yr u1
    let strTitle := if labels.length < 3 then "" else labels.getD 2 ""
    (ar2d, some rx.fst, some ry.fst,
     [labels.getD 0 "" ++ " [" ++ rx.snd ++ "]",
      labels.getD 1 "" ++ " [" ++ ry.snd ++ "]",
      strTitle])
  | _, _, _ => (ar2d, x_range, y_range, labels)

/-- C6: `uti_plot2d` rescales and decorates exactly when `units`, `x_range`
and `y_range` are all present: with units but a missing range (either one),
or with no units, ranges and labels pass through unchanged — independently
of the rescale collaborator — and with all three present both ranges are
rescaled and the labels carry the bracketed units. -/
theorem uti_plot2d_guard_spec (rescale_dim : RangeT → String → RangeT × String)
    (ar2d : PyVal) (xr yr : RangeT) (yro xro : Option RangeT)
    (labels : List String) (u0 u1 u2 : String) :
    uti_plot2d rescale_dim ar2d Option.none yro labels (some (u0, u1, u2))
      = (ar2d, Option.none, yro, labels)
    ∧ uti_plot2d rescale_dim ar2d (some xr) Option.none labels
        (some (u0, u1, u2))
      = (ar2d, some xr, Option.none, labels)
    ∧ uti_plot2d rescale_dim ar2d xro yro labels Option.none
      = (ar2d, xro, yro, labels)
    ∧ uti_plot2d rescale_dim ar2d (some xr) (some yr) labels
        (some (u0, u1, u2))
      = (ar2d, some (rescale_dim xr u0).fst, some (rescale_dim yr u1).fst,
         [labels.getD 0 "" ++ " [" ++ (rescale_dim xr u0).snd ++ "]",
          labels.getD 1 "" ++ " [" ++ (rescale_dim yr u1).snd ++ "]",
          if labels.length < 3 then "" else labels.getD 2 ""]) := by
  refine ⟨?_, rfl, ?_, rfl⟩
  · cases yro <;> rfl
  · cases xro <;> cases yro <;> rfl

/-- Round half to even, as Python's built-in `round` on exact values. -/
def roundHalfEven (q : ℚ) : ℤ :=
  if q - ⌊q⌋ < 1/2 then ⌊q⌋
  else if 1/2 < q - ⌊q⌋ then ⌊q⌋ + 1
  else if ⌊q⌋ % 2 = 0 then ⌊q⌋ else ⌊q⌋ + 1

/-- Python's `round(q, 6)`: round half to even at the sixth decimal. -/
def pyRound6 (q : ℚ) : ℚ :=
  (roundHalfEven (q * 1000000) : ℚ) / 1000000

/-- `round(0, 6) = 0`. -/
theorem pyRound6_zero : pyRound6 0 = 0 := by
  norm_num [pyRound6, roundHalfEven]

/-- Embeds `uti_plot2d1d` (lines 172-230).  `pyStr` abstracts Python's `str`
on numbers.  With `units` present: the pre-rescale extents are recorded
(lines 190-191), both ranges are rescaled (lines 194-195), a non-zero cut
coordinate is multiplied by the ratio of post- to pre-rescale extent of its
axis (lines 198-199), and the three label triples are built with bracketed
units and "At ⟨axis⟩: ⟨rounded value⟩ ⟨unit if non-zero⟩" cut titles
(lines 203-216).  Without `units` the same triples are built with undecorated
labels and unrounded values (lines 218-226).  The result is the call
delegated at line 230:
`(ar2d, x_range, y_range, x, y, [label2D, label1X, label1Y], graphs_joined)`. -/
def uti_plot2d1d (rescale_dim : RangeT → String → RangeT × String)
    (pyStr : ℚ → String) (ar2d : PyVal) (x_range y_range : RangeT) (x y : ℚ)
    (labels : List String) (units : Option (String × String × String))
    (graphs_joined : Bool) :
    PyVal × RangeT × RangeT × ℚ × ℚ × List (String × String × String) × Bool :=
  match units with
  | some (u0, u1, u2) =>
    let xRangeOrig := x_range.stop - x_range.start
    let yRangeOrig := y_range.stop - y_range.start
    let rx := rescale_dim x_range u0
    let ry := rescale_dim y_range u1
    let x1 := if x ≠ 0 then x * ((rx.fst.stop - rx.fst.start) / xRangeOrig) else x
    let y1 := if y ≠ 0 then y * ((ry.fst.stop - ry.fst.start) / yRangeOrig) else y
    let label2D := (labels.getD 0 "" ++ " [" ++ rx.snd ++ "]",
                    labels.getD 1 "" ++ " [" ++ ry.snd ++ "]",
                    labels.getD 2 "")
    let t1 := "At " ++ labels.getD 1 "" ++ ": " ++ pyStr (pyRound6 y1)
    let t1 := if y1 ≠ 0 then t1 ++ " " ++ ry.snd else t1
    let label1X := (labels.getD 0 "" ++ " [" ++ rx.snd ++ "]",
                    labels.getD 2 "" ++ " [" ++ u2 ++ "]", t1)
    let t2 := "At " ++ labels.getD 0 "" ++ ": " ++ pyStr (pyRound6 x1)
    let t2 := if x1 ≠ 0 then t2 ++ " " ++ rx.snd else t2
    let label1Y := (labels.getD 1 "" ++ " [" ++ ry.snd ++ "]",
                    labels.getD 2 "" ++ " [" ++ u2 ++ "]", t2)
    (ar2d, rx.fst, ry.fst, x1, y1, [label2D, label1X, label1Y], graphs_joined)
  | none =>
    let label2D := (labels.getD 0 "", labels.getD 1 "", labels.getD 2 "")
    let label1X := (labels.getD 0 "", labels.getD 2 "",
                    "At " ++ labels.getD 1 "" ++ ": " ++ pyStr y)
    let label1Y := (labels.getD 1 "", labels.getD 2 "",
                    "At " ++ labels.getD 0 "" ++ ": " ++ pyStr x)
    (ar2d, x_range, y_range, x, y, [label2D, label1X, label1Y], graphs_joined)

/-- C7: in `uti_plot2d1d` with units, after both ranges are rescaled a
non-zero cut coordinate is multiplied by the ratio of the post-rescale
extent to the pre-rescale extent of its own axis, and a zero cut coordinate
is delegated unchanged.  The non-zero pre-rescale extents match the
division actually performed at lines 198-199. -/
theorem uti_plot2d1d_cut_scaling
    (rescale_dim : RangeT → String → RangeT × String) (pyStr : ℚ → String)
    (ar2d : PyVal) (xr yr : RangeT) (x y : ℚ) (l0 l1 l2 u0 u1 u2 : String)
    (gj : Bool) (hx : xr.stop - xr.start ≠ 0) (hy : yr.stop - yr.start ≠ 0) :
    (uti_plot2d1d rescale_dim pyStr ar2d xr yr x y [l0, l1, l2]
        (some (u0, u1, u2)) gj).2.2.2.1
      = (if x = 0 then x
         else x * (((rescale_dim xr u0).fst.stop
            - (rescale_dim xr u0).fst.start) / (xr.stop - xr.start)))
    ∧ (uti_plot2d1d rescale_dim pyStr ar2d xr yr x y [l0, l1, l2]
        (some (u0, u1, u2)) gj).2.2.2.2.1
      = (if y = 0 then y
         else y * (((rescale_dim yr u1).fst.stop
            - (rescale_dim yr u1).fst.start) / (yr.stop - yr.start))) := by
  constructor
  · by_cases hx0 : x = 0 <;> simp [uti_plot2d1d, hx0]
  · by_cases hy0 : y = 0 <;> simp [uti_plot2d1d, hy0]

/-- C7 witness: a concrete run with the identity rescale collaborator,
ranges of extents 10 and 4, and cuts x = 3, y = 0. -/
theorem uti_plot2d1d_cut_scaling_witness :
    ((⟨0, 10, 5⟩ : RangeT).stop - (⟨0, 10, 5⟩ : RangeT).start ≠ 0)
    ∧ ((⟨-2, 2, 5⟩ : RangeT).stop - (⟨-2, 2, 5⟩ : RangeT).start ≠ 0)
    ∧ ((uti_plot2d1d idRescale (fun _ => "v") PyVal.pyNone ⟨0, 10, 5⟩
          ⟨-2, 2, 5⟩ 3 0 ["X", "Y", "I"] (some ("m", "m", "ph")) true).2.2.2.1
        = (if (3 : ℚ) = 0 then 3
           else 3 * (((idRescale ⟨0, 10, 5⟩ "m").fst.stop
              - (idRescale ⟨0, 10, 5⟩ "m").fst.start)
              / ((⟨0, 10, 5⟩ : RangeT).stop - (⟨0, 10, 5⟩ : RangeT).start)))
      ∧ (uti_plot2d1d idRescale (fun _ => "v") PyVal.pyNone ⟨0, 10, 5⟩
          ⟨-2, 2, 5⟩ 3 0 ["X", "Y", "I"] (some ("m", "m", "ph")) true).2.2.2.2.1
        = (if (0 : ℚ) = 0 then 0
           else 0 * (((idRescale ⟨-2, 2, 5⟩ "m").fst.stop
              - (idRescale ⟨-2, 2, 5⟩ "m").fst.start)
              / ((⟨-2, 2, 5⟩ : RangeT).stop - (⟨-2, 2, 5⟩ : RangeT).start)))) :=
  ⟨by norm_num, by norm_num,
   uti_plot2d1d_cut_scaling idRescale (fun _ => "v") PyVal.pyNone
     ⟨0, 10, 5⟩ ⟨-2, 2, 5⟩ 3 0 "X" "Y" "I" "m" "m" "ph" true
     (by norm_num) (by norm_num)⟩

/-- C8: with units, the X-cut title delegated by `uti_plot2d1d` is
`"At " ++ labels[1] ++ ": " ++ str(round(y, 6))` with `" " ++ y-unit`
appended exactly when `y` is non-zero (`y` here being the delegated cut,
which is non-zero iff the input cut is, given non-degenerate extents), and
symmetrically the Y-cut title keyed on `x`; without units the titles are
`"At " ++ labels[1] ++ ": " ++ str(y)` and `"At " ++ labels[0] ++ ": " ++
str(x)` with no units; and at cut `x = 0`, `y = 0` the unit branch and the
no-unit branch produce the same `"At ⟨axis⟩: 0"`-style titles. -/
theorem uti_plot2d1d_cut_titles
    (rescale_dim : RangeT → String → RangeT × String) (pyStr : ℚ → String)
    (ar2d : PyVal) (xr yr : RangeT) (x y : ℚ) (l0 l1 l2 u0 u1 u2 : String)
    (gj : Bool)
    (hx : xr.stop - xr.start ≠ 0) (hy : yr.stop - yr.start ≠ 0)
    (hx1 : (rescale_dim xr u0).fst.stop - (rescale_dim xr u0).fst.start ≠ 0)
    (hy1 : (rescale_dim yr u1).fst.stop - (rescale_dim yr u1).fst.start ≠ 0) :
    ((uti_plot2d1d rescale_dim pyStr ar2d xr yr x y [l0, l1, l2]
        (some (u0, u1, u2)) gj).2.2.2.2.2.1.getD 1 ("", "", "")).2.2
      = (if y = 0 then "At " ++ l1 ++ ": " ++ pyStr 0
         else "At " ++ l1 ++ ": " ++ pyStr (pyRound6
             (y * (((rescale_dim yr u1).fst.stop
                - (rescale_dim yr u1).fst.start) / (yr.stop - yr.start))))
           ++ " " ++ (rescale_dim yr u1).snd)
    ∧ ((uti_plot2d1d rescale_dim pyStr ar2d xr yr x y [l0, l1, l2]
        (some (u0, u1, u2)) gj).2.2.2.2.2.1.getD 2 ("", "", "")).2.2
      = (if x = 0 then "At " ++ l0 ++ ": " ++ pyStr 0
         else "At " ++ l0 ++ ": " ++ pyStr (pyRound6
             (x * (((rescale_dim xr u0).fst.stop
                - (rescale_dim xr u0).fst.start) / (xr.stop - xr.start))))
           ++ " " ++ (rescale_dim xr u0).snd)
    ∧ ((uti_plot2d1d rescale_dim pyStr ar2d xr yr x y [l0, l1, l2]
        Option.none gj).2.2.2.2.2.1.getD 1 ("", "", "")).2.2
      = "At " ++ l1 ++ ": " ++ pyStr y
    ∧ ((uti_plot2d1d rescale_dim pyStr ar2d xr yr x y [l0, l1, l2]
        Option.none gj).2.2.2.2.2.1.getD 2 ("", "", "")).2.2
      = "At " ++ l0 ++ ": " ++ pyStr x
    ∧ (y = 0 →
        ((uti_plot2d1d rescale_dim pyStr ar2d xr yr x y [l0, l1, l2]
            (some (u0, u1, u2)) gj).2.2.2.2.2.1.getD 1 ("", "", "")).2.2
          = ((uti_plot2d1d rescale_dim pyStr ar2d xr yr x y [l0, l1, l2]
            Option.none gj).2.2.2.2.2.1.getD 1 ("", "", "")).2.2)
    ∧ (x = 0 →
        ((uti_plot2d1d rescale_dim pyStr ar2d xr yr x y [l0, l1, l2]
            (some (u0, u1, u2)) gj).2.2.2.2.2.1.getD 2 ("", "", "")).2.2
          = ((uti_plot2d1d rescale_dim pyStr ar2d xr yr x y [l0, l1, l2]
            Option.none gj).2.2.2.2.2.1.getD 2 ("", "", "")).2.2) := by
  refine ⟨?_, ?_, rfl, rfl, ?_, ?_⟩
  · by_cases hy0 : y = 0
    · simp [uti_plot2d1d, hy0, pyRound6_zero]
    · have hs : y * (((rescale_dim yr u1).fst.stop
          - (rescale_dim yr u1).fst.start) / (yr.stop - yr.start)) ≠ 0 :=
        mul_ne_zero hy0 (div_ne_zero hy1 hy)
      simp [uti_plot2d1d, hy0, hs]
  · by_cases hx0 : x = 0
    · simp [uti_plot2d1d, hx0, pyRound6_zero]
    · have hs : x * (((rescale_dim xr u0).fst.stop
          - (rescale_dim xr u0).fst.start) / (xr.stop - xr.start)) ≠ 0 :=
        mul_ne_zero hx0 (div_ne_zero hx1 hx)
      simp [uti_plot2d1d, hx0, hs]
  · intro hy0
    simp [uti_plot2d1d, hy0, pyRound6_zero]
  · intro hx0
    simp [uti_plot2d1d, hx0, pyRound6_zero]

/-- C8 witness: a concrete run with the identity rescale collaborator, a
constant `str`, ranges of extents 10 and 4, and cuts x = 3, y = 0. -/
theorem uti_plot2d1d_cut_titles_witness :
    ((⟨0, 10, 5⟩ : RangeT).stop - (⟨0, 10, 5⟩ : RangeT).start ≠ 0)
    ∧ ((⟨-2, 2, 5⟩ : RangeT).stop - (⟨-2, 2, 5⟩ : RangeT).start ≠ 0)
    ∧ ((idRescale ⟨0, 10, 5⟩ "m").fst.stop
        - (idRescale ⟨0, 10, 5⟩ "m").fst.start ≠ 0)
    ∧ ((idRescale ⟨-2, 2, 5⟩ "s").fst.stop
        - (idRescale ⟨-2, 2, 5⟩ "s").fst.start ≠ 0)
    ∧ (((uti_plot2d1d idRescale (fun _ => "v") PyVal.pyNone ⟨0, 10, 5⟩
          ⟨-2, 2, 5⟩ 3 0 ["X", "Y", "I"] (some ("m", "s", "ph"))
          true).2.2.2.2.2.1.getD 1 ("", "", "")).2.2
        = (if (0 : ℚ) = 0 then "At " ++ "Y" ++ ": " ++ (fun (_ : ℚ) => "v") 0
           else "At " ++ "Y" ++ ": " ++ (fun (_ : ℚ) => "v") (pyRound6
               (0 * (((idRescale ⟨-2, 2, 5⟩ "s").fst.stop
                  - (idRescale ⟨-2, 2, 5⟩ "s").fst.start)
                  / ((⟨-2, 2, 5⟩ : RangeT).stop - (⟨-2, 2, 5⟩ : RangeT).start))))
             ++ " " ++ (idRescale ⟨-2, 2, 5⟩ "s").snd)
      ∧ ((uti_plot2d1d idRescale (fun _ => "v") PyVal.pyNone ⟨0, 10, 5⟩
          ⟨-2, 2, 5⟩ 3 0 ["X", "Y", "I"] (some ("m", "s", "ph"))
          true).2.2.2.2.2.1.getD 2 ("", "", "")).2.2
        = (if (3 : ℚ) = 0 then "At " ++ "X" ++ ": " ++ (fun (_ : ℚ) => "v") 0
           else "At " ++ "X" ++ ": " ++ (fun (_ : ℚ) => "v") (pyRound6
               (3 * (((idRescale ⟨0, 10, 5⟩ "m").fst.stop
                  - (idRescale ⟨0, 10, 5⟩ "m").fst.start)
                  / ((⟨0, 10, 5⟩ : RangeT).stop - (⟨0, 10, 5⟩ : RangeT).start))))
             ++ " " ++ (idRescale ⟨0, 10, 5⟩ "m").snd)
      ∧ ((uti_plot2d1d idRescale (fun _ => "v") PyVal.pyNone ⟨0, 10, 5⟩
          ⟨-2, 2, 5⟩ 3 0 ["X", "Y", "I"] Option.none
          true).2.2.2.2.2.1.getD 1 ("", "", "")).2.2
        = "At " ++ "Y" ++ ": " ++ (fun (_ : ℚ) => "v") 0
      ∧ ((uti_plot2d1d idRescale (fun _ => "v") PyVal.pyNone ⟨0, 10, 5⟩
          ⟨-2, 2, 5⟩ 3 0 ["X", "Y", "I"] Option.none
          true).2.2.2.2.2.1.getD 2 ("", "", "")).2.2
        = "At " ++ "X" ++ ": " ++ (fun (_ : ℚ) => "v") 3
      ∧ ((0 : ℚ) = 0 →
          ((uti_plot2d1d idRescale (fun _ => "v") PyVal.pyNone ⟨0, 10, 5⟩
              ⟨-2, 2, 5⟩ 3 0 ["X", "Y", "I"] (some ("m", "s", "ph"))
              true).2.2.2.2.2.1.getD 1 ("", "", "")).2.2
            = ((uti_plot2d1d idRescale (fun _ => "v") PyVal.pyNone ⟨0, 10, 5⟩
              ⟨-2, 2, 5⟩ 3 0 ["X", "Y", "I"] Option.none
              true).2.2.2.2.2.1.getD 1 ("", "", "")).2.2)
      ∧ ((3 : ℚ) = 0 →
          ((uti_plot2d1d idRescale (fun _ => "v") PyVal.pyNone ⟨0, 10, 5⟩
              ⟨-2, 2, 5⟩ 3 0 ["X", "Y", "I"] (some ("m", "s", "ph"))
              true).2.2.2.2.2.1.getD 2 ("", "", "")).2.2
            = ((uti_plot2d1d idRescale (fun _ => "v") PyVal.pyNone ⟨0, 10, 5⟩
              ⟨-2, 2, 5⟩ 3 0 ["X", "Y", "I"] Option.none
              true).2.2.2.2.2.1.getD 2 ("", "", "")).2.2)) :=
  ⟨by norm_num, by norm_num, by norm_num [idRescale], by norm_num [idRescale],
   uti_plot2d1d_cut_titles idRescale (fun _ => "v") PyVal.pyNone
     ⟨0, 10, 5⟩ ⟨-2, 2, 5⟩ 3 0 "X" "Y" "I" "m" "s" "ph" true
     (by norm_num) (by norm_num) (by norm_num [idRescale])
     (by norm_num [idRescale])⟩
